import Mathlib

/-!
Verification of the `xlsx-review` fixture generator
(`src/examples/create_test_pair.py`) against its specification.

The script builds two in-memory workbooks with openpyxl and persists them.
We embed the workbook data model (ordered sheets, a sparse map from
(column, row) addresses to tagged cell values, and the implicit row cursor
used by `Worksheet.append`) and mirror the construction routines
`create_old`, `create_new` and the `__main__` block line by line.
Serialization (`wb.save`) and printing are external effects: they are
recorded as events in an output trace, and `wb.save` is parameterized by a
predicate saying which destination paths are writable, so that error
propagation can be stated.
-/

/-- A cell value: openpyxl stores the script's assignments either as a
string (formulas are strings beginning with `=`, stored verbatim) or as an
integer. -/
inductive Cell where
  | s : String → Cell
  | i : Int → Cell
deriving DecidableEq, Repr

/-- A worksheet: a title, a sparse association list from (column, row)
(both 1-based) to cell values, and the implicit cursor used by
`Worksheet.append` (the next unused row; openpyxl's `_current_row` starts
at 0 and `append` writes to `_current_row + 1`, so the cursor starts at 1). -/
structure Sheet where
  name : String
  cells : List ((Nat × Nat) × Cell)
  nextRow : Nat
deriving DecidableEq, Repr

/-- A workbook: an ordered sequence of sheets (creation order). -/
structure Workbook where
  sheets : List Sheet
deriving DecidableEq, Repr

/-- Set one cell of a sheet, overwriting an existing value at the same
address and otherwise adding a new entry. -/
def Sheet.setCell (ws : Sheet) (addr : Nat × Nat) (v : Cell) : Sheet :=
  if ws.cells.any (fun p => p.1 = addr) then
    { ws with cells := ws.cells.map (fun p => if p.1 = addr then (addr, v) else p) }
  else
    { ws with cells := ws.cells ++ [(addr, v)] }

/-- `Worksheet.append`: assign the values to consecutive columns starting
at column 1 of the next unused row, then advance the row cursor. -/
def Sheet.appendRow (ws : Sheet) (vs : List Cell) : Sheet :=
  let r := ws.nextRow
  let withRow := (List.zip (List.range vs.length) vs).foldl
    (fun acc p => acc.setCell (p.1 + 1, r) p.2) ws
  { withRow with nextRow := r + 1 }

/-- `openpyxl.Workbook()`: a fresh workbook holding one empty active sheet
named "Sheet". -/
def Workbook.new : Workbook := ⟨[⟨"Sheet", [], 1⟩]⟩

/-- `wb.active.title = t`: retitle the first (active) sheet. -/
def Workbook.retitleActive (wb : Workbook) (t : String) : Workbook :=
  match wb.sheets with
  | [] => wb
  | ws :: rest => ⟨{ ws with name := t } :: rest⟩

/-- `wb.create_sheet(t)`: append a fresh empty sheet named `t`. -/
def Workbook.createSheet (wb : Workbook) (t : String) : Workbook :=
  ⟨wb.sheets ++ [⟨t, [], 1⟩]⟩

/-- Apply a mutation to the sheet with the given name. -/
def Workbook.modifySheet (wb : Workbook) (t : String) (f : Sheet → Sheet) : Workbook :=
  ⟨wb.sheets.map (fun ws => if ws.name = t then f ws else ws)⟩

/-- Column letters to a 1-based column index (A=1, ..., Z=26, AA=27, ...). -/
def colIndex (letters : List Char) : Nat :=
  letters.foldl (fun a c => a * 26 + (c.toNat - 64)) 0

/-- Decimal digits to a number. -/
def digitsToNat (cs : List Char) : Nat :=
  cs.foldl (fun a c => a * 10 + (c.toNat - 48)) 0

/-- Parse an A1-style cell reference such as "B3" into (column, row). -/
def parseAddr (a : String) : Nat × Nat :=
  let cs := a.toList
  (colIndex (cs.takeWhile Char.isUpper), digitsToNat (cs.dropWhile Char.isUpper))

/-- `ws[a] = v` with `a` an A1-style address, keyed by sheet name. -/
def Workbook.set (wb : Workbook) (t : String) (a : String) (v : Cell) : Workbook :=
  wb.modifySheet t (fun ws => ws.setCell (parseAddr a) v)

/-- `ws.append(vs)`, keyed by sheet name. -/
def Workbook.append (wb : Workbook) (t : String) (vs : List Cell) : Workbook :=
  wb.modifySheet t (fun ws => ws.appendRow vs)

/-- Look up a sheet by name. -/
def Workbook.sheet? (wb : Workbook) (t : String) : Option Sheet :=
  wb.sheets.find? (fun ws => ws.name = t)

/-- Look up a cell value by sheet name and (column, row) address. -/
def Workbook.cell? (wb : Workbook) (t : String) (col row : Nat) : Option Cell :=
  (wb.sheet? t).bind (fun ws => (ws.cells.find? (fun p => p.1 = (col, row))).map Prod.snd)

/-- The sheet names of a workbook, in order. -/
def Workbook.sheetNames (wb : Workbook) : List String :=
  wb.sheets.map Sheet.name

/-- The workbook built by `create_old` (lines 6-31 of the script), mirrored
mutation by mutation. -/
def old_workbook : Workbook :=
  let wb := Workbook.new
  let wb := wb.retitleActive "Data"
  let wb := wb.append "Data" [.s "Patient ID", .s "Age", .s "Score", .s "Group"]
  let wb := wb.append "Data" [.s "P001", .i 34, .i 88, .s "Control"]
  let wb := wb.append "Data" [.s "P002", .i 28, .i 92, .s "Treatment"]
  let wb := wb.append "Data" [.s "P003", .i 45, .i 76, .s "Control"]
  let wb := wb.append "Data" [.s "P004", .i 31, .i 85, .s "Treatment"]
  let wb := wb.append "Data" [.s "P005", .i 39, .i 90, .s "Control"]
  let wb := wb.createSheet "Summary"
  let wb := wb.set "Summary" "A1" (.s "Metric")
  let wb := wb.set "Summary" "B1" (.s "Value")
  let wb := wb.set "Summary" "A2" (.s "Count")
  let wb := wb.set "Summary" "B2" (.i 5)
  let wb := wb.set "Summary" "A3" (.s "Mean Age")
  let wb := wb.set "Summary" "B3" (.s "=AVERAGE(Data!B2:B6)")
  let wb := wb.set "Summary" "A4" (.s "Mean Score")
  let wb := wb.set "Summary" "B4" (.s "=AVERAGE(Data!C2:C6)")
  let wb := wb.set "Summary" "A5" (.s "Total Score")
  let wb := wb.set "Summary" "B5" (.s "=SUM(Data!C2:C6)")
  wb

/-- The workbook built by `create_new` (lines 35-68 of the script), mirrored
mutation by mutation. -/
def new_workbook : Workbook :=
  let wb := Workbook.new
  let wb := wb.retitleActive "Data"
  let wb := wb.append "Data" [.s "Patient ID", .s "Age", .s "Score", .s "Group"]
  let wb := wb.append "Data" [.s "P001", .i 34, .i 88, .s "Control"]
  let wb := wb.append "Data" [.s "P002", .i 29, .i 95, .s "Treatment"]
  let wb := wb.append "Data" [.s "P003", .i 45, .i 76, .s "Control"]
  let wb := wb.append "Data" [.s "P004", .i 31, .i 85, .s "Treatment"]
  let wb := wb.append "Data" [.s "P005", .i 39, .i 90, .s "Control"]
  let wb := wb.append "Data" [.s "P006", .i 42, .i 81, .s "Treatment"]
  let wb := wb.createSheet "Summary"
  let wb := wb.set "Summary" "A1" (.s "Metric")
  let wb := wb.set "Summary" "B1" (.s "Value")
  let wb := wb.set "Summary" "A2" (.s "Count")
  let wb := wb.set "Summary" "B2" (.i 6)
  let wb := wb.set "Summary" "A3" (.s "Mean Age")
  let wb := wb.set "Summary" "B3" (.s "=AVERAGE(Data!B2:B7)")
  let wb := wb.set "Summary" "A4" (.s "Median Score")
  let wb := wb.set "Summary" "B4" (.s "=MEDIAN(Data!C2:C7)")
  let wb := wb.set "Summary" "A5" (.s "Total Score")
  let wb := wb.set "Summary" "B5" (.s "=SUM(Data!C2:C7)")
  let wb := wb.createSheet "Notes"
  let wb := wb.set "Notes" "A1" (.s "Date")
  let wb := wb.set "Notes" "B1" (.s "Note")
  let wb := wb.set "Notes" "A2" (.s "2026-02-14")
  let wb := wb.set "Notes" "B2" (.s "Added patient P006, updated summary formulas")
  wb

/-- An observable effect of the script: persisting a workbook to a path
(`wb.save(path)`) or printing a line. -/
inductive Event where
  | save : String → Workbook → Event
  | println : String → Event
deriving DecidableEq, Repr

/-- The ambient environment (wall clock, randomness source). The script
never consults either — it calls no time or random API — so the embedded
runs below take an `Env` but never read it; this is what lets determinism
be stated as a theorem rather than assumed. -/
structure Env where
  clock : Nat
  seed : Nat

/-- `create_old()` as an effect trace. `ok` says which destination paths
the serialization sink can write; a failed `wb.save` raises, so the run
aborts with the failing path and performs no further effect (in particular
the confirmation print never happens). -/
def create_old (_env : Env) (ok : String → Bool) : List Event × Option String :=
  if ok "test_old.xlsx" then
    ([Event.save "test_old.xlsx" old_workbook, Event.println "Created test_old.xlsx"], none)
  else
    ([], some "test_old.xlsx")

/-- `create_new()` as an effect trace, analogous to `create_old`. -/
def create_new (_env : Env) (ok : String → Bool) : List Event × Option String :=
  if ok "test_new.xlsx" then
    ([Event.save "test_new.xlsx" new_workbook, Event.println "Created test_new.xlsx"], none)
  else
    ([], some "test_new.xlsx")

/-- The `__main__` block: run `create_old()`, then `create_new()`, then
print the three hint lines; an uncaught exception from a save aborts the
whole invocation at that point. -/
def mainRun (env : Env) (ok : String → Bool) : List Event × Option String :=
  match create_old env ok with
  | (evs, some p) => (evs, some p)
  | (evs1, none) =>
    match create_new env ok with
    | (evs, some p) => (evs1 ++ evs, some p)
    | (evs2, none) =>
      (evs1 ++ evs2 ++
        [Event.println "Done! Run:",
         Event.println "  xlsx-review --diff test_old.xlsx test_new.xlsx",
         Event.println "  xlsx-review --textconv test_new.xlsx"], none)

/-- Split a character list at every occurrence of the separator. -/
def splitOnChar (c : Char) : List Char → List (List Char)
  | [] => [[]]
  | x :: xs =>
    let r := splitOnChar c xs
    if x = c then [] :: r
    else
      match r with
      | [] => [[x]]
      | y :: ys => (x :: y) :: ys

/-- Is this stored string a formula (a string beginning with `=`)? -/
def isFormula (v : String) : Bool :=
  match v.toList with
  | '=' :: _ => true
  | _ => false

/-- Extract, from a formula string of the shape `=FUNC(Sheet!A2:B7)`, the
referenced sheet name and the two row endpoints of the range: the text
between the first `(` and the following `)`, split at `!` into a sheet
qualifier and a `:`-separated pair of A1-style references, keeping each
reference's row number. -/
def formulaRange? (v : String) : Option (String × Nat × Nat) :=
  let inner := ((v.toList.dropWhile (fun c => c ≠ '(')).drop 1).takeWhile (fun c => c ≠ ')')
  match splitOnChar '!' inner with
  | [sheet, range] =>
    match splitOnChar ':' range with
    | [a, b] =>
      some (String.mk sheet,
        digitsToNat (a.dropWhile Char.isUpper),
        digitsToNat (b.dropWhile Char.isUpper))
    | _ => none
  | _ => none

/-- All formula cells of a workbook: (sheet name, address, stored string). -/
def formulaCells (wb : Workbook) : List (String × (Nat × Nat) × String) :=
  wb.sheets.flatMap (fun ws => ws.cells.filterMap (fun p =>
    match p.2 with
    | .s v => if isFormula v then some (ws.name, p.1, v) else none
    | .i _ => none))

/-- The distinct row indices populated on a sheet, in first-population order. -/
def Sheet.rowsPresent (ws : Sheet) : List Nat :=
  (ws.cells.map (fun p => p.1.2)).dedup

/-- The delta cells enumerated in §4.2 of the spec: on "Data", B3, C3 and
all of row 7; on "Summary", B2, B3, A4, B4 and B5. -/
def deltaCell (t : String) (a : Nat × Nat) : Bool :=
  if t = "Data" then a = (2, 3) ∨ a = (3, 3) ∨ a.2 = 7
  else if t = "Summary" then
    a = (2, 2) ∨ a = (2, 3) ∨ a = (1, 4) ∨ a = (2, 4) ∨ a = (2, 5)
  else false

/-- The minimal-delta check: on each shared sheet, every address populated
in both workbooks and not enumerated as a delta cell holds the same tagged
value in both. -/
def minimalDelta (wOld wNew : Workbook) : Bool :=
  ["Data", "Summary"].all (fun t =>
    match wOld.sheet? t, wNew.sheet? t with
    | some so, some sn =>
      so.cells.all (fun p =>
        match sn.cells.find? (fun q => q.1 = p.1) with
        | some q => deltaCell t p.1 || decide (q.2 = p.2)
        | none => true)
    | _, _ => true)

/-- On the given sheet of the workbook, does every formula cell reference
a range on sheet `refSheet` whose two endpoints are rows `r1` and `r2`? -/
def allFormulasRange (wb : Workbook) (t refSheet : String) (r1 r2 : Nat) : Bool :=
  match wb.sheet? t with
  | some ws =>
    ws.cells.all (fun p =>
      match p.2 with
      | .s v => !(isFormula v) || decide (formulaRange? v = some (refSheet, r1, r2))
      | .i _ => true)
  | none => false

/-- C1: building "old" yields a Data sheet whose row 3 is the P002 record
with Age 28 and Score 92 and a Summary sheet whose row 2 (label "Count")
has value 5; building "new" yields Data row 3 with Age 29 and Score 95,
Summary row 2 value 6, and a third sheet "Notes" with A1="Date" and
B1="Note", while "old" has no "Notes" sheet. -/
theorem c1_scenario :
    old_workbook.cell? "Data" 1 3 = some (.s "P002") ∧
    old_workbook.cell? "Data" 2 3 = some (.i 28) ∧
    old_workbook.cell? "Data" 3 3 = some (.i 92) ∧
    old_workbook.cell? "Summary" 1 2 = some (.s "Count") ∧
    old_workbook.cell? "Summary" 2 2 = some (.i 5) ∧
    new_workbook.cell? "Data" 1 3 = some (.s "P002") ∧
    new_workbook.cell? "Data" 2 3 = some (.i 29) ∧
    new_workbook.cell? "Data" 3 3 = some (.i 95) ∧
    new_workbook.cell? "Summary" 1 2 = some (.s "Count") ∧
    new_workbook.cell? "Summary" 2 2 = some (.i 6) ∧
    new_workbook.sheetNames = ["Data", "Summary", "Notes"] ∧
    new_workbook.cell? "Notes" 1 1 = some (.s "Date") ∧
    new_workbook.cell? "Notes" 2 1 = some (.s "Note") ∧
    old_workbook.sheet? "Notes" = none := by decide

/-- C2: the "old" Data sheet's populated rows are exactly 1-6 (5 data rows
below the header), the "new" Data sheet's are exactly 1-7 (6 data rows),
and every formula string on the "new" Summary sheet references a range on
the Data sheet whose endpoints are rows 2 and 7. -/
theorem c2_row_counts :
    (old_workbook.sheet? "Data").map Sheet.rowsPresent = some [1, 2, 3, 4, 5, 6] ∧
    (new_workbook.sheet? "Data").map Sheet.rowsPresent = some [1, 2, 3, 4, 5, 6, 7] ∧
    allFormulasRange new_workbook "Summary" "Data" 2 7 = true := by decide

/-- C3: every cell address populated in both workbooks on the shared
sheets "Data" and "Summary" that is not one of the enumerated delta cells
holds the same tagged value in "old" and "new". -/
theorem c3_minimal_delta : minimalDelta old_workbook new_workbook = true := by decide

/-- C4: the sheet names of "new" minus those of "old" are exactly
{"Notes"}, every sheet of "old" also occurs in "new", and the order is
Data, Summary in "old" and Data, Summary, Notes in "new". -/
theorem c4_structural_delta :
    old_workbook.sheetNames = ["Data", "Summary"] ∧
    new_workbook.sheetNames = ["Data", "Summary", "Notes"] ∧
    new_workbook.sheetNames.filter
      (fun n => !(old_workbook.sheetNames.contains n)) = ["Notes"] ∧
    old_workbook.sheetNames.all
      (fun n => new_workbook.sheetNames.contains n) = true := by decide

/-- C5: the formula cells of each built workbook store exactly the literal
strings assigned during construction, each beginning with '='; in
particular "new" Summary B3 stores exactly "=AVERAGE(Data!B2:B7)". -/
theorem c5_formula_opacity :
    formulaCells old_workbook =
      [("Summary", (2, 3), "=AVERAGE(Data!B2:B6)"),
       ("Summary", (2, 4), "=AVERAGE(Data!C2:C6)"),
       ("Summary", (2, 5), "=SUM(Data!C2:C6)")] ∧
    formulaCells new_workbook =
      [("Summary", (2, 3), "=AVERAGE(Data!B2:B7)"),
       ("Summary", (2, 4), "=MEDIAN(Data!C2:C7)"),
       ("Summary", (2, 5), "=SUM(Data!C2:C7)")] ∧
    new_workbook.cell? "Summary" 2 3 = some (.s "=AVERAGE(Data!B2:B7)") := by decide

/-- C6: the generator is deterministic — its output trace (saved workbooks,
with their sheet order, cells and formula strings, and printed lines) does
not depend on the ambient environment (clock, randomness), which the
script never reads. -/
theorem c6_determinism (e1 e2 : Env) (ok : String → Bool) :
    mainRun e1 ok = mainRun e2 ok := rfl

/-- C7: with every path writable, the entry point performs exactly, in
order: persist "old" to test_old.xlsx, print its confirmation, persist
"new" to test_new.xlsx, print its confirmation, then print the "Done"
message and the downstream tool's two command lines. -/
theorem c7_main_trace (e : Env) :
    mainRun e (fun _ => true) =
      ([Event.save "test_old.xlsx" old_workbook,
        Event.println "Created test_old.xlsx",
        Event.save "test_new.xlsx" new_workbook,
        Event.println "Created test_new.xlsx",
        Event.println "Done! Run:",
        Event.println "  xlsx-review --diff test_old.xlsx test_new.xlsx",
        Event.println "  xlsx-review --textconv test_new.xlsx"], none) := rfl

/-- C8: a save failure propagates unmodified and aborts the invocation
immediately, with no silent partial success. If the sink cannot write
test_old.xlsx, the run performs no effect and reports test_old.xlsx as the
failure — in particular the "new" workbook is never persisted. If the old
save succeeds but the sink cannot write test_new.xlsx, the run stops right
after the old save and its confirmation, reporting test_new.xlsx. And
whenever the run reports a failing path, that path really is one the sink
rejected — the file that failed is always identified. -/
theorem c8_error_propagation (e : Env) (ok : String → Bool) :
    (ok "test_old.xlsx" = false →
      mainRun e ok = ([], some "test_old.xlsx")) ∧
    (ok "test_old.xlsx" = true → ok "test_new.xlsx" = false →
      mainRun e ok =
        ([Event.save "test_old.xlsx" old_workbook,
          Event.println "Created test_old.xlsx"], some "test_new.xlsx")) ∧
    (∀ p : String, (mainRun e ok).2 = some p → ok p = false) := by
  refine ⟨?_, ?_, ?_⟩
  · intro h
    simp [mainRun, create_old, h]
  · intro h1 h2
    simp [mainRun, create_old, create_new, h1, h2]
  · intro p hp
    cases h1 : ok "test_old.xlsx" with
    | false =>
      have hm : (mainRun e ok).2 = some "test_old.xlsx" := by
        simp [mainRun, create_old, h1]
      have hq : "test_old.xlsx" = p := Option.some.inj (hm.symm.trans hp)
      exact hq ▸ h1
    | true =>
      cases h2 : ok "test_new.xlsx" with
      | false =>
        have hm : (mainRun e ok).2 = some "test_new.xlsx" := by
          simp [mainRun, create_old, create_new, h1, h2]
        have hq : "test_new.xlsx" = p := Option.some.inj (hm.symm.trans hp)
        exact hq ▸ h2
      | true =>
        have hm : (mainRun e ok).2 = none := by
          simp [mainRun, create_old, create_new, h1, h2]
        exact absurd (hm.symm.trans hp) (by simp)

/-- Witness for C8 at two concrete sinks: one that rejects every path, and
one that accepts only test_old.xlsx. -/
theorem c8_witness :
    mainRun ⟨0, 0⟩ (fun _ => false) = ([], some "test_old.xlsx") ∧
    mainRun ⟨0, 0⟩ (fun p => p == "test_old.xlsx") =
      ([Event.save "test_old.xlsx" old_workbook,
        Event.println "Created test_old.xlsx"], some "test_new.xlsx") :=
  ⟨(c8_error_propagation ⟨0, 0⟩ (fun _ => false)).1 rfl,
   (c8_error_propagation ⟨0, 0⟩ (fun p => p == "test_old.xlsx")).2.1 rfl rfl⟩

/-- C9: in both built workbooks the sheet names are pairwise distinct and
non-empty, the sheets appear in creation order, and the first-created
(active) sheet "Data" is first. -/
theorem c9_sheet_invariants :
    old_workbook.sheetNames = ["Data", "Summary"] ∧
    new_workbook.sheetNames = ["Data", "Summary", "Notes"] ∧
    old_workbook.sheetNames.Nodup ∧
    new_workbook.sheetNames.Nodup ∧
    old_workbook.sheetNames.all (fun n => n ≠ "") = true ∧
    new_workbook.sheetNames.all (fun n => n ≠ "") = true ∧
    (old_workbook.sheets.head?).map Sheet.name = some "Data" ∧
    (new_workbook.sheets.head?).map Sheet.name = some "Data" := by decide

/-- C10: the one new Data row of "new" sits at row 7, columns A-D, with
exactly the values "P006", 42, 81, "Treatment", and no other row is new:
the populated rows of "new" Data are those of "old" Data plus row 7. -/
theorem c10_appended_row :
    new_workbook.cell? "Data" 1 7 = some (.s "P006") ∧
    new_workbook.cell? "Data" 2 7 = some (.i 42) ∧
    new_workbook.cell? "Data" 3 7 = some (.i 81) ∧
    new_workbook.cell? "Data" 4 7 = some (.s "Treatment") ∧
    (new_workbook.sheet? "Data").map
      (fun ws => (ws.cells.filter (fun p => p.1.2 = 7)).map (fun p => p.1.1)) =
      some [1, 2, 3, 4] ∧
    (new_workbook.sheet? "Data").map Sheet.rowsPresent = some [1, 2, 3, 4, 5, 6, 7] ∧
    (old_workbook.sheet? "Data").map Sheet.rowsPresent = some [1, 2, 3, 4, 5, 6] := by decide
